import Mathlib

/-!
Shallow embedding of the scheduling / backup-execution core of the
sql-backup-system repository (backend/app/services/backup_service.py,
backend/app/services/scheduler_service.py, backend/app/api/backups.py,
backend/app/models/models.py), together with theorems settling the
frozen behavioural claims about it.

Conventions of the embedding:
* timestamps are integers counting minutes (datetime.utcnow() becomes an
  explicit `now` parameter; timedelta(days=d) is d * 1440 minutes,
  timedelta(minutes=5) is 5);
* the database session is replaced by explicit lists of records threaded
  through the functions; committing is implicit in returning the new lists;
* calls into external collaborators (pyodbc, dropbox, the store, smtp) are
  driven by an environment of booleans saying whether each call raises;
* Python exceptions are values: an ordinary Exception (caught by
  `except Exception`) or asyncio.CancelledError, which since Python 3.8 is
  NOT a subclass of Exception and passes through `except Exception` clauses;
* Python enum attribute access (BackupStatus.NAME) is a partial lookup by
  name, so that access to an undeclared member models the AttributeError
  the interpreter raises.
-/

namespace SqlBackup

/-- Timestamps in minutes. -/
abbrev Time := Int

/-- timedelta(days=1) measured in minutes. -/
def minutesPerDay : Int := 1440

/-- timedelta(minutes=5), the "schedule soon" delay of `_get_next_run_time`. -/
def catchUpDelay : Int := 5

/-- models.py: class BackupType(enum.Enum). -/
inductive BackupType where
  | full
  | differential
deriving DecidableEq, Repr

/-- models.py: class BackupStatus(enum.Enum) — the four declared members. -/
inductive BackupStatus where
  | pending
  | in_progress
  | completed
  | failed
deriving DecidableEq, Repr

/-- models.py: class ScheduleFrequency(enum.Enum). -/
inductive ScheduleFrequency where
  | daily
  | weekly
  | monthly
deriving DecidableEq, Repr

/-- Python attribute lookup `BackupStatus.<name>` on the enum class declared
in models.py. Exactly the four declared members resolve; any other name
(in particular "DELETED", used by `_cleanup_old_backups`) yields none,
modelling the AttributeError the interpreter raises. -/
def BackupStatus.attr : String → Option BackupStatus
  | "PENDING" => some .pending
  | "IN_PROGRESS" => some .in_progress
  | "COMPLETED" => some .completed
  | "FAILED" => some .failed
  | _ => none

/-- models.py: BackupJob row, restricted to the fields the core reads.
`database_name` stands for the related Database row's name. -/
structure BackupJob where
  id : Nat
  database_name : String
  backup_type : BackupType
  frequency : ScheduleFrequency
  retention_days : Int
  last_run : Option Time
  next_run : Option Time
  is_active : Bool
deriving DecidableEq, Repr

/-- models.py: Backup row. `created_at` comes from TimestampMixin
(default=datetime.utcnow at insertion). -/
structure Backup where
  id : Nat
  backup_job_id : Nat
  status : BackupStatus
  file_path : Option String
  file_size : Option Int
  cloud_storage_path : Option String
  started_at : Option Time
  completed_at : Option Time
  error_message : Option String
  created_at : Time
deriving DecidableEq, Repr

/-- Python truthiness of an Optional[str] column: None and "" are falsy. -/
def pyTruthy : Option String → Bool
  | none => false
  | some s => !s.isEmpty

/-! ## Retention sweep (`BackupService._cleanup_old_backups`) -/

/-- `retention_date = datetime.utcnow() - timedelta(days=backup_job.retention_days)`. -/
def retentionCutoff (job : BackupJob) (now : Time) : Time :=
  now - job.retention_days * minutesPerDay

/-- The filter of the query in `_cleanup_old_backups`: backups of this job,
created before the retention cutoff, with status COMPLETED. There is no
exemption for the most recent backup. -/
def isOldBackup (job : BackupJob) (now : Time) (b : Backup) : Bool :=
  b.backup_job_id == job.id &&
    decide (b.created_at < retentionCutoff job now) &&
    b.status == BackupStatus.completed

/-- The query `old_backups = db.query(Backup).filter(...)` in
`_cleanup_old_backups`. -/
def oldBackupsQuery (job : BackupJob) (backups : List Backup) (now : Time) :
    List Backup :=
  backups.filter (isOldBackup job now)

/-- What happened to one backup processed by the cleanup loop. -/
structure CleanupItem where
  backupId : Nat
  remoteDeleted : Bool
  localDeleted : Bool
  statusWritten : Option BackupStatus
  errorLogged : Bool
deriving DecidableEq, Repr

/-- The body of the per-backup try block in `_cleanup_old_backups`.
`localFileExists` models `os.path.exists` keyed by the backup id.
The remote artifact is deleted when `cloud_storage_path` is truthy, the
local file when `file_path` is truthy and the file exists; then the line
`old_backup.status = BackupStatus.DELETED` evaluates the attribute
`DELETED`, which is not declared on the enum, so an AttributeError is
raised, caught by the `except` clause of the loop and logged — the record
itself is left unchanged. -/
def cleanupItem (b : Backup) (localFileExists : Nat → Bool) :
    Backup × CleanupItem :=
  let remote := pyTruthy b.cloud_storage_path
  let localDel := pyTruthy b.file_path && localFileExists b.id
  match BackupStatus.attr "DELETED" with
  | some s => ({ b with status := s }, ⟨b.id, remote, localDel, some s, false⟩)
  | none => (b, ⟨b.id, remote, localDel, none, true⟩)

/-- `BackupService._cleanup_old_backups(backup_job)`: query the expired
COMPLETED backups of the job and run the per-backup block on each; the
per-backup `except` clause means a failing iteration never aborts the
remaining ones. Returns the records after the sweep together with the log
of processed items. -/
def cleanupOldBackups (job : BackupJob) (backups : List Backup) (now : Time)
    (localFileExists : Nat → Bool) : List Backup × List CleanupItem :=
  let items := (oldBackupsQuery job backups now).map
    (fun b => (cleanupItem b localFileExists).2)
  let backups2 := backups.map
    (fun b => if isOldBackup job now b then (cleanupItem b localFileExists).1 else b)
  (backups2, items)

/-! ## Executor (`BackupService.create_backup` / `_perform_backup` /
`_handle_backup_error`) -/

/-- A raised Python exception: either an ordinary Exception (caught by
`except Exception` clauses, carrying its str(e) message) or
asyncio.CancelledError, which since Python 3.8 derives from BaseException
only and passes through every `except Exception` in this codebase. -/
inductive PyErr where
  | exc (msg : String)
  | cancelledError
deriving DecidableEq, Repr

/-- Outcomes of the external calls an attempt makes, one flag per possible
failure point (the flag is true when the call succeeds). SMTP failures are
absent: `NotificationService._send_email` swallows them internally, so a
notification raises only when its own store accesses do
(`notifySuccessOk`). `cancelled` means the attempt's task has a pending
cancellation: asyncio delivers the CancelledError only at a genuine
suspension point, and the only awaits an attempt ever reaches are the SMTP
awaits inside `_send_email` — the backup/upload region of
`_perform_backup`'s try block is synchronous, await-free code — so the
CancelledError is delivered during the first notification send the attempt
performs, which always comes after a terminal status was written. -/
structure ExecEnv where
  sqlOk : Bool
  uploadOk : Bool
  cleanupQueryOk : Bool
  notifySuccessOk : Bool
  cancelled : Bool
  fileSizeBytes : Int
  timestampTag : String
  localFileExists : Nat → Bool

/-- `os.path.join(settings.BACKUP_STORAGE_PATH, filename)` with
`filename = "backup_<db>_<timestamp>.bak"`. -/
def localPathFor (storagePath dbName tag : String) : String :=
  storagePath ++ "/backup_" ++ dbName ++ "_" ++ tag ++ ".bak"

/-- `cloud_path = "/<db>/<filename>"`. -/
def cloudPathFor (dbName tag : String) : String :=
  "/" ++ dbName ++ "/backup_" ++ dbName ++ "_" ++ tag ++ ".bak"

/-- `BackupService._handle_backup_error`: set FAILED, record the message and
`completed_at`, then send the failure notification. -/
def handleBackupError (b : Backup) (msg : String) (now : Time) : Backup :=
  { b with status := BackupStatus.failed, error_message := some msg,
           completed_at := some now }

/-- Replace the stored record with the given primary key (the ORM identity
map: mutating the tracked object updates the row). -/
def updateBackup (bs : List Backup) (b : Backup) : List Backup :=
  bs.map (fun x => if x.id == b.id then b else x)

/-- Everything observable about one `create_backup` call: the attempt's
record as last written, the stored records afterwards, the exception (if
any) escaping `create_backup` to its caller, the sequence of status values
written to the attempt's record, how often each notification path ran, and
whether `_cleanup_old_backups` was invoked. `jobAfter` is the owning
BackupJob row after the call. -/
structure ExecOutcome where
  backup : Backup
  backupsAfter : List Backup
  raised : Option PyErr
  statusTrace : List BackupStatus
  failureNotifications : Nat
  successNotifications : Nat
  retentionInvoked : Bool
  cleanupLog : List CleanupItem
  jobAfter : BackupJob

/-- Result of `create_backup(backup_job_id)`: a ValueError escapes before
any record is created when the job id is unknown; otherwise the attempt
ran and produced an `ExecOutcome`. -/
inductive CreateBackupResult where
  | jobNotFound
  | ran (o : ExecOutcome)

/-- `db.query(BackupJob).filter(BackupJob.id == job_id).first()`. -/
def findJob (jobs : List BackupJob) (job_id : Nat) : Option BackupJob :=
  jobs.find? (fun j => j.id == job_id)

/-- `BackupService.create_backup` followed by `_perform_backup`, transcribed
branch by branch:

1. look the job up; unknown id raises ValueError (no record exists yet);
2. insert a PENDING record with `started_at` (and `created_at`, via the
   TimestampMixin default) set to now;
3. `_perform_backup` sets IN_PROGRESS, then inside its try block runs the
   SQL backup (`sqlOk`) and the upload (`uploadOk`) — synchronous,
   await-free calls — and on success writes COMPLETED together with the
   artifact fields, invokes `_cleanup_old_backups` (whose initial store
   query is `cleanupQueryOk`; per-item failures are handled inside the
   loop and the dropbox/os deletion calls are synchronous too) and the
   success notification (`notifySuccessOk` is its store access);
4. an ordinary exception anywhere in the try block reaches the except
   clause of `_perform_backup`, which calls `_handle_backup_error`
   (FAILED + message + `completed_at` + failure notification) and
   re-raises; the except clause of `create_backup` then calls
   `_handle_backup_error` a second time and re-raises again, so the
   exception escapes `create_backup`;
5. cancellation (`cancelled`): the CancelledError can only be delivered at
   the first SMTP await the attempt reaches, inside the first notification
   send — which in every branch comes after a terminal status (COMPLETED,
   or FAILED with the genuine failure's message) was already written. The
   interrupted send delivers nothing, no `except Exception` clause matches
   (so on the failure path the second `_handle_backup_error` call never
   happens), and the CancelledError escapes `create_backup`. No branch
   can leave the record IN_PROGRESS and none records a
   cancellation-specific error;
6. no branch ever writes to the owning job row (in particular `last_run`
   is never updated). -/
def createBackup (env : ExecEnv) (storagePath : String)
    (jobs : List BackupJob) (backups : List Backup) (newId : Nat)
    (job_id : Nat) (now : Time) : CreateBackupResult :=
  match findJob jobs job_id with
  | none => CreateBackupResult.jobNotFound
  | some job =>
    let b0 : Backup :=
      { id := newId, backup_job_id := job_id, status := BackupStatus.pending,
        file_path := none, file_size := none, cloud_storage_path := none,
        started_at := some now, completed_at := none, error_message := none,
        created_at := now }
    let bs0 := backups ++ [b0]
    let b1 := { b0 with status := BackupStatus.in_progress }
    let bs1 := updateBackup bs0 b1
    if !env.sqlOk then
      let msg := "sql backup failed"
      let b2 := handleBackupError b1 msg now
      if env.cancelled then
        CreateBackupResult.ran
          { backup := b2, backupsAfter := updateBackup bs1 b2,
            raised := some PyErr.cancelledError,
            statusTrace := [BackupStatus.pending, BackupStatus.in_progress,
              BackupStatus.failed],
            failureNotifications := 0, successNotifications := 0,
            retentionInvoked := false, cleanupLog := [], jobAfter := job }
      else
        CreateBackupResult.ran
          { backup := b2, backupsAfter := updateBackup bs1 b2,
            raised := some (PyErr.exc msg),
            statusTrace := [BackupStatus.pending, BackupStatus.in_progress,
              BackupStatus.failed, BackupStatus.failed],
            failureNotifications := 2, successNotifications := 0,
            retentionInvoked := false, cleanupLog := [], jobAfter := job }
    else if !env.uploadOk then
      let msg := "upload failed"
      let b2 := handleBackupError b1 msg now
      if env.cancelled then
        CreateBackupResult.ran
          { backup := b2, backupsAfter := updateBackup bs1 b2,
            raised := some PyErr.cancelledError,
            statusTrace := [BackupStatus.pending, BackupStatus.in_progress,
              BackupStatus.failed],
            failureNotifications := 0, successNotifications := 0,
            retentionInvoked := false, cleanupLog := [], jobAfter := job }
      else
        CreateBackupResult.ran
          { backup := b2, backupsAfter := updateBackup bs1 b2,
            raised := some (PyErr.exc msg),
            statusTrace := [BackupStatus.pending, BackupStatus.in_progress,
              BackupStatus.failed, BackupStatus.failed],
            failureNotifications := 2, successNotifications := 0,
            retentionInvoked := false, cleanupLog := [], jobAfter := job }
    else
      let b2 : Backup :=
        { b1 with status := BackupStatus.completed,
                  file_path :=
                    some (localPathFor storagePath job.database_name env.timestampTag),
                  cloud_storage_path :=
                    some (cloudPathFor job.database_name env.timestampTag),
                  file_size := some env.fileSizeBytes,
                  completed_at := some now }
      let bs2 := updateBackup bs1 b2
      if !env.cleanupQueryOk then
        let msg := "cleanup query failed"
        let b3 := handleBackupError b2 msg now
        if env.cancelled then
          CreateBackupResult.ran
            { backup := b3, backupsAfter := updateBackup bs2 b3,
              raised := some PyErr.cancelledError,
              statusTrace := [BackupStatus.pending, BackupStatus.in_progress,
                BackupStatus.completed, BackupStatus.failed],
              failureNotifications := 0, successNotifications := 0,
              retentionInvoked := true, cleanupLog := [], jobAfter := job }
        else
          CreateBackupResult.ran
            { backup := b3, backupsAfter := updateBackup bs2 b3,
              raised := some (PyErr.exc msg),
              statusTrace := [BackupStatus.pending, BackupStatus.in_progress,
                BackupStatus.completed, BackupStatus.failed, BackupStatus.failed],
              failureNotifications := 2, successNotifications := 0,
              retentionInvoked := true, cleanupLog := [], jobAfter := job }
      else
        let swept := cleanupOldBackups job bs2 now env.localFileExists
        if !env.notifySuccessOk then
          let msg := "success notification failed"
          let b3 := handleBackupError b2 msg now
          if env.cancelled then
            CreateBackupResult.ran
              { backup := b3, backupsAfter := updateBackup swept.1 b3,
                raised := some PyErr.cancelledError,
                statusTrace := [BackupStatus.pending, BackupStatus.in_progress,
                  BackupStatus.completed, BackupStatus.failed],
                failureNotifications := 0, successNotifications := 0,
                retentionInvoked := true, cleanupLog := swept.2, jobAfter := job }
          else
            CreateBackupResult.ran
              { backup := b3, backupsAfter := updateBackup swept.1 b3,
                raised := some (PyErr.exc msg),
                statusTrace := [BackupStatus.pending, BackupStatus.in_progress,
                  BackupStatus.completed, BackupStatus.failed, BackupStatus.failed],
                failureNotifications := 2, successNotifications := 0,
                retentionInvoked := true, cleanupLog := swept.2, jobAfter := job }
        else
          if env.cancelled then
            CreateBackupResult.ran
              { backup := b2, backupsAfter := swept.1,
                raised := some PyErr.cancelledError,
                statusTrace := [BackupStatus.pending, BackupStatus.in_progress,
                  BackupStatus.completed],
                failureNotifications := 0, successNotifications := 0,
                retentionInvoked := true, cleanupLog := swept.2, jobAfter := job }
          else
            CreateBackupResult.ran
              { backup := b2, backupsAfter := swept.1,
                raised := none,
                statusTrace := [BackupStatus.pending, BackupStatus.in_progress,
                  BackupStatus.completed],
                failureNotifications := 0, successNotifications := 1,
                retentionInvoked := true, cleanupLog := swept.2, jobAfter := job }

/-- Projection used to state facts about a run that did create a record. -/
def outcomeOf : CreateBackupResult → Option ExecOutcome
  | CreateBackupResult.jobNotFound => none
  | CreateBackupResult.ran o => some o

/-! ## Scheduler (`SchedulerService`) -/

/-- One value of the `running_jobs: Dict[int, asyncio.Task]` map: the job id
key with the identity of the task stored under it (each
`asyncio.create_task` call yields a fresh identity). -/
structure InflightEntry where
  jobId : Nat
  taskToken : Nat
deriving DecidableEq, Repr

/-- Scheduler state: the jobs table, the `running_jobs` map (as an
association list with unique job-id keys), a counter handing out task
identities, and three event logs that record, respectively, every task
ever created by `_schedule_job`, every token whose `Task.cancel()` was
called, and every token whose `_run_backup` reached its finally block
(i.e. signalled terminal completion). -/
structure SchedState where
  jobs : List BackupJob
  running : List InflightEntry
  taskCounter : Nat
  dispatched : List InflightEntry
  cancelRequests : List Nat
  ended : List Nat
deriving DecidableEq, Repr

/-- `job_id in self.running_jobs`. -/
def inRunning (running : List InflightEntry) (job_id : Nat) : Bool :=
  running.any (fun e => e.jobId == job_id)

/-- `self.running_jobs[job.id] = task`: dict assignment overwrites an
existing entry under the key and otherwise appends. -/
def setRunning (running : List InflightEntry) (e : InflightEntry) :
    List InflightEntry :=
  if inRunning running e.jobId then
    running.map (fun x => if x.jobId == e.jobId then e else x)
  else running ++ [e]

/-- `del self.running_jobs[job_id]`: removal by key. -/
def delRunning (running : List InflightEntry) (job_id : Nat) :
    List InflightEntry :=
  running.filter (fun e => e.jobId != job_id)

/-- The tokens currently stored under a key (used when an operation calls
`Task.cancel()` on the stored handle before deleting it). -/
def tokensFor (running : List InflightEntry) (job_id : Nat) : List Nat :=
  (running.filter (fun e => e.jobId == job_id)).map (fun e => e.taskToken)

/-- `SchedulerService._get_next_run_time(job, days)`: the candidate is
`last_run + timedelta(days=days)`; a candidate strictly in the past, or
an unknown `last_run`, is replaced by now + 5 minutes. -/
def getNextRunTime (job : BackupJob) (days : Int) (now : Time) : Time :=
  match job.last_run with
  | some lr =>
    let nr := lr + days * minutesPerDay
    if nr < now then now + catchUpDelay else nr
  | none => now + catchUpDelay

/-- The `if/elif` chain of `_schedule_job` mapping the frequency to the
`days` argument of `_get_next_run_time`. -/
def frequencyDays : ScheduleFrequency → Int
  | ScheduleFrequency.daily => 1
  | ScheduleFrequency.weekly => 7
  | ScheduleFrequency.monthly => 30

/-- `SchedulerService._schedule_job(job)`: compute the schedule time from
the job's frequency, assign it to `job.next_run`, then immediately
`asyncio.create_task(self._run_backup(job.id))` and store the task under
the job id — task creation is unconditional, never gated on the computed
time. The `next_run` assignment, however, never reaches the jobs table:
`job` belongs to the CALLER's session, while `_schedule_job` opens and
commits a fresh, unrelated `SessionLocal()` (a no-op), and every caller
(`_schedule_pending_jobs`, `reschedule_job`, `resume_job`) closes its own
session without committing — with `sessionmaker(autocommit=False)` the
dirty change is rolled back on close. The jobs table that later poll
cycles query therefore keeps its old `next_run`; the computed value
(`_t` below, dead by construction) is discarded. (The `else: return`
branch for an unrecognized frequency is unreachable: ScheduleFrequency
has exactly the three handled members.) -/
def scheduleJob (st : SchedState) (job : BackupJob) (now : Time) : SchedState :=
  let _t := getNextRunTime job (frequencyDays job.frequency) now
  let entry : InflightEntry := ⟨job.id, st.taskCounter⟩
  { st with
      running := setRunning st.running entry,
      taskCounter := st.taskCounter + 1,
      dispatched := st.dispatched ++ [entry] }

/-- The query filter of `_schedule_pending_jobs`: active jobs whose
`next_run` has passed or is unset. -/
def isDue (j : BackupJob) (now : Time) : Bool :=
  j.is_active &&
    (match j.next_run with
     | some t => decide (t ≤ now)
     | none => true)

/-- The body of the loop in `_schedule_pending_jobs`: skip a job whose id is
currently a key of `running_jobs`, otherwise `_schedule_job` it. -/
def pollStep (now : Time) (s : SchedState) (j : BackupJob) : SchedState :=
  if inRunning s.running j.id then s else scheduleJob s j now

/-- `SchedulerService._schedule_pending_jobs`: fetch the due active jobs,
then for each one whose id is not currently a key of `running_jobs`,
run `_schedule_job` on it. -/
def schedulePendingJobs (st : SchedState) (now : Time) : SchedState :=
  (st.jobs.filter (fun j => isDue j now)).foldl (pollStep now) st

/-- The finally block of `SchedulerService._run_backup`: after the attempt
(whatever its outcome), `if job_id in self.running_jobs: del
self.running_jobs[job_id]` — removal is by job id alone, regardless of
which task is currently stored there; the finishing token is logged as
having signalled terminal completion. -/
def runBackupEnd (st : SchedState) (job_id : Nat) (token : Nat) : SchedState :=
  { st with
      running := if inRunning st.running job_id then delRunning st.running job_id
                 else st.running,
      ended := st.ended ++ [token] }

/-- `SchedulerService.pause_job(job_id)`: if the id is a key of
`running_jobs`, call `cancel()` on the stored task and delete the entry —
synchronously, without awaiting the task. Nothing else changes: the job
row keeps `is_active` as it was. -/
def pauseJob (st : SchedState) (job_id : Nat) : SchedState :=
  if inRunning st.running job_id then
    { st with
        cancelRequests := st.cancelRequests ++ tokensFor st.running job_id,
        running := delRunning st.running job_id }
  else st

/-- `SchedulerService.reschedule_job(job_id)`: look the job up; when found
and active, cancel-and-delete any current entry for the id, then
`_schedule_job` it (which registers a brand-new task under the id). -/
def rescheduleJob (st : SchedState) (job_id : Nat) (now : Time) : SchedState :=
  match findJob st.jobs job_id with
  | some job =>
    if job.is_active then
      let st2 :=
        if inRunning st.running job_id then
          { st with
              cancelRequests := st.cancelRequests ++ tokensFor st.running job_id,
              running := delRunning st.running job_id }
        else st
      scheduleJob st2 job now
    else st
  | none => st

/-- `SchedulerService.resume_job(job_id)`: look the job up; when found,
active, and not currently in `running_jobs`, `_schedule_job` it. -/
def resumeJob (st : SchedState) (job_id : Nat) (now : Time) : SchedState :=
  match findJob st.jobs job_id with
  | some job =>
    if job.is_active && !inRunning st.running job_id then scheduleJob st job now
    else st
  | none => st

/-- How many execution tasks have ever been created for a job id. -/
def countDispatched (st : SchedState) (job_id : Nat) : Nat :=
  (st.dispatched.filter (fun e => e.jobId == job_id)).length

/-- The entry currently stored under a job id, if any. -/
def entryFor (st : SchedState) (job_id : Nat) : Option InflightEntry :=
  st.running.find? (fun e => e.jobId == job_id)

/-- `SchedulerService._run_backup(job_id)` as observed from the scheduler:
it calls the executor, its `except Exception` clause swallows any ordinary
exception escaping `create_backup` (merely printing it), a CancelledError
passes through, and the finally block releases the in-flight slot. Returns
the scheduler state afterwards, the stored backups afterwards, and the
exception (if any) escaping `_run_backup` itself. -/
def schedRunBackup (env : ExecEnv) (storagePath : String) (st : SchedState)
    (backups : List Backup) (newId : Nat) (job_id : Nat) (token : Nat)
    (now : Time) : SchedState × List Backup × Option PyErr :=
  let r := createBackup env storagePath st.jobs backups newId job_id now
  let backups2 := match outcomeOf r with
    | some o => o.backupsAfter
    | none => backups
  let escaping : Option PyErr := match outcomeOf r with
    | some o =>
      match o.raised with
      | some PyErr.cancelledError => some PyErr.cancelledError
      | _ => none
    | none => none
  (runBackupEnd st job_id token, backups2, escaping)

/-! ## Manual run endpoint (`backups.py`: `run_backup_job`) -/

/-- The methods defined in the class body of BackupService in
backup_service.py, in order (used to model Python attribute lookup on the
service instance; `__init__` is omitted as it is never looked up here). -/
def backupServiceMethods : List String :=
  ["create_backup", "_perform_backup", "_get_sql_connection",
   "_create_backup_command", "_cleanup_old_backups", "_handle_backup_error",
   "get_backup_status", "list_backups"]

/-- HTTP-level outcome of the manual-run route: a normal response carrying
the attempt id, an HTTPException with status 400 carrying str(e), or an
exception escaping the handler uncaught. -/
inductive RunNowResponse where
  | ok (backupId : Nat)
  | badRequest (msg : String)
  | uncaught (e : PyErr)
deriving DecidableEq, Repr

/-- `POST /jobs/.../run` (`run_backup_job` in backups.py): call
`backup_service.create_backup(job_id)` directly — the handler never reads
the scheduler's `running_jobs` map, so the call proceeds no matter what is
in flight. Afterwards the handler evaluates
`backup_service.execute_backup` for `background_tasks.add_task`; no such
method exists on BackupService, so the attribute lookup raises an
AttributeError, which the `except Exception` clause turns into a 400
response. A ValueError (unknown job) or an adapter failure re-raised by
`create_backup` is turned into a 400 response the same way. -/
def runBackupJobEndpoint (env : ExecEnv) (storagePath : String)
    (jobs : List BackupJob) (backups : List Backup) (newId : Nat)
    (job_id : Nat) (now : Time) : RunNowResponse × List Backup :=
  match createBackup env storagePath jobs backups newId job_id now with
  | CreateBackupResult.jobNotFound =>
    (RunNowResponse.badRequest "ValueError: backup job not found", backups)
  | CreateBackupResult.ran o =>
    match o.raised with
    | some (PyErr.exc m) => (RunNowResponse.badRequest m, o.backupsAfter)
    | some PyErr.cancelledError =>
      (RunNowResponse.uncaught PyErr.cancelledError, o.backupsAfter)
    | none =>
      if backupServiceMethods.contains "execute_backup" then
        (RunNowResponse.ok o.backup.id, o.backupsAfter)
      else
        (RunNowResponse.badRequest "AttributeError: execute_backup",
          o.backupsAfter)

/-! # Theorems

General lemmas about the embedded code, followed by one theorem (plus
witness or counterexample) per claim. -/

/-! ## Lemmas on the retention sweep -/

theorem backupStatus_attr_deleted : BackupStatus.attr "DELETED" = none := rfl

theorem cleanupItem_fst (b : Backup) (ex : Nat → Bool) :
    (cleanupItem b ex).1 = b := rfl

theorem cleanupItem_snd (b : Backup) (ex : Nat → Bool) :
    (cleanupItem b ex).2 =
      ⟨b.id, pyTruthy b.cloud_storage_path,
        pyTruthy b.file_path && ex b.id, none, true⟩ := rfl

/-- The sweep leaves every stored record unchanged (the status write to the
purge marker always fails, and nothing else writes to the records). -/
theorem cleanupOldBackups_fst (job : BackupJob) (bs : List Backup) (now : Time)
    (ex : Nat → Bool) : (cleanupOldBackups job bs now ex).1 = bs := by
  simp [cleanupOldBackups, cleanupItem_fst]

/-- The condition of the cleanup query, rephrased: a backup of this job is
selected exactly when it is Completed and its age exceeds the retention
window. -/
theorem isOldBackup_iff (job : BackupJob) (now : Time) (b : Backup) :
    isOldBackup job now b = true ↔
      b.backup_job_id = job.id ∧ b.status = BackupStatus.completed ∧
        now - b.created_at > job.retention_days * minutesPerDay := by
  simp only [isOldBackup, retentionCutoff, Bool.and_eq_true, beq_iff_eq,
    decide_eq_true_eq]
  constructor
  · rintro ⟨⟨h1, h2⟩, h3⟩
    exact ⟨h1, h3, by linarith⟩
  · rintro ⟨h1, h3, h2⟩
    exact ⟨⟨h1, by linarith⟩, h3⟩

/-! ## Claim C1 — retention sweep selection -/

/-- Claim C1 (amended): a retention sweep for a job processes exactly those
Completed backups of the job whose age exceeds the retention window — with
no exemption for the newest one — deleting for each its remote artifact
when a cloud path is recorded and its local artifact when a path is
recorded and the file still exists; the record marking fails for every one
of them (the purge status is not a declared member), so all stored records
are left unchanged. -/
theorem C1_sweep_processes_exactly_expired (job : BackupJob)
    (bs : List Backup) (now : Time) (ex : Nat → Bool) :
    (cleanupOldBackups job bs now ex).2 =
      (bs.filter (fun b => decide (b.backup_job_id = job.id) &&
          (b.status == BackupStatus.completed) &&
          decide (now - b.created_at > job.retention_days * minutesPerDay))).map
        (fun b => ⟨b.id, pyTruthy b.cloud_storage_path,
          pyTruthy b.file_path && ex b.id, none, true⟩) ∧
    (cleanupOldBackups job bs now ex).1 = bs := by
  constructor
  · have hfilt : bs.filter (isOldBackup job now) =
        bs.filter (fun b => decide (b.backup_job_id = job.id) &&
          (b.status == BackupStatus.completed) &&
          decide (now - b.created_at > job.retention_days * minutesPerDay)) := by
      apply List.filter_congr
      intro b _
      rw [Bool.eq_iff_iff, isOldBackup_iff]
      simp only [Bool.and_eq_true, decide_eq_true_eq, beq_iff_eq]
      tauto
    simp only [cleanupOldBackups, oldBackupsQuery, cleanupItem_snd]
    rw [hfilt]
  · exact cleanupOldBackups_fst job bs now ex

/-- Claim C1 counterexample: a job with a 30-day retention window whose only
(hence most recent) Completed backup is 100 days old: the sweep processes
that backup, deleting both its remote and its local artifact — the most
recent Completed backup is not retained. -/
theorem C1_counterexample :
    (cleanupOldBackups
      ⟨1, "db1", BackupType.full, ScheduleFrequency.daily, 30, none, none,
        true⟩
      [⟨11, 1, BackupStatus.completed, some "/data/b.bak", some 100,
        some "/db1/b.bak", some 0, some 5, none, 0⟩]
      144000 (fun _ => true)).2 = [⟨11, true, true, none, true⟩] := by
  decide

/-! ## Claim C9 — purge marker is not a declared status -/

/-- Claim C9 (code bug): the purge marker written by the sweep is the
attribute DELETED of BackupStatus, which is not one of the four declared
members — the lookup fails, so at the failing input (a Completed backup 40
days old under a 30-day window) the record keeps status Completed, is
never marked purged, and the per-item error is logged instead. -/
theorem C9_purge_status_undeclared :
    BackupStatus.attr "DELETED" = none ∧
    BackupStatus.attr "PENDING" = some BackupStatus.pending ∧
    BackupStatus.attr "IN_PROGRESS" = some BackupStatus.in_progress ∧
    BackupStatus.attr "COMPLETED" = some BackupStatus.completed ∧
    BackupStatus.attr "FAILED" = some BackupStatus.failed ∧
    (cleanupOldBackups
      ⟨2, "db9", BackupType.full, ScheduleFrequency.daily, 30, none, none,
        true⟩
      [⟨21, 2, BackupStatus.completed, some "/data/c.bak", some 10,
        some "/db9/c.bak", some 0, some 1, none, 0⟩]
      57600 (fun _ => true)).2 = [⟨21, true, true, none, true⟩] ∧
    (cleanupOldBackups
      ⟨2, "db9", BackupType.full, ScheduleFrequency.daily, 30, none, none,
        true⟩
      [⟨21, 2, BackupStatus.completed, some "/data/c.bak", some 10,
        some "/db9/c.bak", some 0, some 1, none, 0⟩]
      57600 (fun _ => true)).1 =
      [⟨21, 2, BackupStatus.completed, some "/data/c.bak", some 10,
        some "/db9/c.bak", some 0, some 1, none, 0⟩] := by
  decide

/-! ## Claim C2 — executor success path -/

/-- Claim C2 (amended): when the backup production and the upload succeed
(and neither the retention query, the success notification, nor a
cancellation intervenes), the executor records status Completed with the
local artifact path, the remote path, the size and `completed_at`, invokes
the retention sweep for the job and the success notification — but the
owning job row is left entirely unchanged: `last_run` is never updated. -/
theorem C2_success_records_completed (env : ExecEnv) (storagePath : String)
    (jobs : List BackupJob) (backups : List Backup) (newId : Nat)
    (job_id : Nat) (now : Time) (job : BackupJob)
    (hfind : findJob jobs job_id = some job)
    (hsql : env.sqlOk = true) (hup : env.uploadOk = true)
    (hclean : env.cleanupQueryOk = true) (hnot : env.notifySuccessOk = true)
    (hcan : env.cancelled = false) :
    (outcomeOf (createBackup env storagePath jobs backups newId job_id
        now)).map
      (fun o => (o.backup.status, o.backup.file_path,
        o.backup.cloud_storage_path, o.backup.file_size,
        o.backup.completed_at, o.retentionInvoked, o.successNotifications,
        o.jobAfter)) =
      some (BackupStatus.completed,
        some (localPathFor storagePath job.database_name env.timestampTag),
        some (cloudPathFor job.database_name env.timestampTag),
        some env.fileSizeBytes, some now, true, 1, job) := by
  simp [createBackup, outcomeOf, hfind, hsql, hup, hclean, hnot, hcan]

/-- Claim C2 witness: the success path evaluated at a concrete input. -/
theorem C2_success_records_completed_witness :
    (outcomeOf (createBackup
        ⟨true, true, true, true, false, 100, "t0", fun _ => true⟩
        "/var/backups"
        [⟨1, "db2", BackupType.full, ScheduleFrequency.daily, 30, some 0,
          none, true⟩]
        [] 5 1 1000)).map
      (fun o => (o.backup.status, o.backup.file_path,
        o.backup.cloud_storage_path, o.backup.file_size,
        o.backup.completed_at, o.retentionInvoked, o.successNotifications,
        o.jobAfter)) =
      some (BackupStatus.completed,
        some (localPathFor "/var/backups" "db2" "t0"),
        some (cloudPathFor "db2" "t0"),
        some 100, some 1000, true, 1,
        ⟨1, "db2", BackupType.full, ScheduleFrequency.daily, 30, some 0,
          none, true⟩) :=
  C2_success_records_completed
    ⟨true, true, true, true, false, 100, "t0", fun _ => true⟩
    "/var/backups"
    [⟨1, "db2", BackupType.full, ScheduleFrequency.daily, 30, some 0, none,
      true⟩]
    [] 5 1 1000
    ⟨1, "db2", BackupType.full, ScheduleFrequency.daily, 30, some 0, none,
      true⟩
    rfl rfl rfl rfl rfl rfl

/-- Claim C2 counterexample: a fully successful attempt at time 1000 for a
job whose `last_run` reads 0 — afterwards the job row still reads
`last_run` = 0 (the row is untouched), although a Completed attempt with
`completed_at` = 1000 was just recorded, so the executor does not update
the owning job's `last_run`. -/
theorem C2_counterexample :
    (outcomeOf (createBackup
        ⟨true, true, true, true, false, 100, "t1", fun _ => true⟩
        "/var/backups"
        [⟨3, "db3", BackupType.full, ScheduleFrequency.daily, 30, some 0,
          none, true⟩]
        [] 7 3 1000)).map
      (fun o => (o.backup.status, o.backup.completed_at,
        o.jobAfter.last_run, o.jobAfter)) =
      some (BackupStatus.completed, some 1000, some 0,
        ⟨3, "db3", BackupType.full, ScheduleFrequency.daily, 30, some 0,
          none, true⟩) := by
  decide

/-! ## Lemmas on the in-flight map -/

theorem inRunning_delRunning (r : List InflightEntry) (id : Nat) :
    inRunning (delRunning r id) id = false := by
  induction r with
  | nil => rfl
  | cons a t ih =>
    by_cases h : a.jobId = id
    · simpa [delRunning, h] using ih
    · simp only [delRunning, inRunning] at ih ⊢
      simp [List.filter_cons, h, ih]

/-- After the finally block of `_run_backup` for a job id, that id is no
longer a key of `running_jobs`. -/
theorem inRunning_runBackupEnd (st : SchedState) (id tok : Nat) :
    inRunning (runBackupEnd st id tok).running id = false := by
  cases h : inRunning st.running id with
  | true => simp [runBackupEnd, h, inRunning_delRunning]
  | false => simp [runBackupEnd, h]

/-! ## Claim C6 — failure handling at the executor boundary -/

/-- Claim C6 (amended): a backup-production or upload failure is caught by
the executor, which records status Failed with the captured error message
and `completed_at` and runs the failure-notification path (twice: once in
`_perform_backup`, once more in `create_backup`) — but then re-raises, so
the exception does escape `create_backup` into the Scheduler's
`_run_backup`, whose own `except Exception` clause swallows it: no
exception escapes `_run_backup` itself, and its finally block releases the
job's in-flight slot. -/
theorem C6_failure_recorded_then_reraised (env : ExecEnv)
    (storagePath : String) (st : SchedState) (backups : List Backup)
    (newId job_id token : Nat) (now : Time) (job : BackupJob)
    (hfind : findJob st.jobs job_id = some job)
    (hcan : env.cancelled = false)
    (hfail : env.sqlOk = false ∨ env.uploadOk = false) :
    ((outcomeOf (createBackup env storagePath st.jobs backups newId job_id
        now)).map
      (fun o => (o.backup.status, o.backup.error_message,
        o.backup.completed_at, o.failureNotifications, o.raised)) =
      some (BackupStatus.failed,
        some (cond env.sqlOk "upload failed" "sql backup failed"), some now,
        2, some (PyErr.exc
          (cond env.sqlOk "upload failed" "sql backup failed")))) ∧
    (schedRunBackup env storagePath st backups newId job_id token now).2.2 =
      none ∧
    inRunning (schedRunBackup env storagePath st backups newId job_id token
      now).1.running job_id = false := by
  refine ⟨?_, ?_, ?_⟩
  · rcases hfail with h | h
    · simp [createBackup, outcomeOf, handleBackupError, hfind, hcan, h]
    · by_cases hs : env.sqlOk
      · simp [createBackup, outcomeOf, handleBackupError, hfind, hcan, h, hs]
      · simp only [Bool.not_eq_true] at hs
        simp [createBackup, outcomeOf, handleBackupError, hfind, hcan, hs]
  · rcases hfail with h | h
    · simp [schedRunBackup, createBackup, outcomeOf, hfind, hcan, h]
    · by_cases hs : env.sqlOk
      · simp [schedRunBackup, createBackup, outcomeOf, hfind, hcan, h, hs]
      · simp only [Bool.not_eq_true] at hs
        simp [schedRunBackup, createBackup, outcomeOf, hfind, hcan, hs]
  · simpa only [schedRunBackup] using
      inRunning_runBackupEnd st job_id token

/-- Claim C6 witness: the failure path evaluated at a concrete input (the
upload fails while the SQL backup succeeded). -/
theorem C6_failure_recorded_then_reraised_witness :
    ((outcomeOf (createBackup
        ⟨true, false, true, true, false, 0, "t6", fun _ => true⟩
        "/var/backups"
        (SchedState.mk
          [⟨6, "db6", BackupType.full, ScheduleFrequency.daily, 30, none,
            none, true⟩]
          [⟨6, 0⟩] 1 [⟨6, 0⟩] [] []).jobs
        [] 8 6 500)).map
      (fun o => (o.backup.status, o.backup.error_message,
        o.backup.completed_at, o.failureNotifications, o.raised)) =
      some (BackupStatus.failed, some "upload failed", some 500, 2,
        some (PyErr.exc "upload failed"))) ∧
    (schedRunBackup ⟨true, false, true, true, false, 0, "t6", fun _ => true⟩
      "/var/backups"
      (SchedState.mk
        [⟨6, "db6", BackupType.full, ScheduleFrequency.daily, 30, none,
          none, true⟩]
        [⟨6, 0⟩] 1 [⟨6, 0⟩] [] [])
      [] 8 6 0 500).2.2 = none ∧
    inRunning (schedRunBackup
      ⟨true, false, true, true, false, 0, "t6", fun _ => true⟩
      "/var/backups"
      (SchedState.mk
        [⟨6, "db6", BackupType.full, ScheduleFrequency.daily, 30, none,
          none, true⟩]
        [⟨6, 0⟩] 1 [⟨6, 0⟩] [] [])
      [] 8 6 0 500).1.running 6 = false :=
  C6_failure_recorded_then_reraised
    ⟨true, false, true, true, false, 0, "t6", fun _ => true⟩
    "/var/backups"
    (SchedState.mk
      [⟨6, "db6", BackupType.full, ScheduleFrequency.daily, 30, none, none,
        true⟩]
      [⟨6, 0⟩] 1 [⟨6, 0⟩] [] [])
    [] 8 6 0 500
    ⟨6, "db6", BackupType.full, ScheduleFrequency.daily, 30, none, none,
      true⟩
    rfl rfl (Or.inr rfl)

/-- Claim C6 counterexample: at a concrete failing attempt (upload fails)
the exception escapes `create_backup` — the value of `raised` is the very
exception the Scheduler's `_run_backup` then receives in its own
`except` clause, so the exception IS propagated past the Executor to the
Scheduler, contradicting the claim. -/
theorem C6_counterexample :
    (outcomeOf (createBackup
        ⟨true, false, true, true, false, 0, "t7", fun _ => true⟩
        "/var/backups"
        [⟨7, "db7", BackupType.full, ScheduleFrequency.daily, 30, none,
          none, true⟩]
        [] 9 7 600)).map (fun o => o.raised) =
      some (some (PyErr.exc "upload failed")) := by
  decide

/-! ## Lemmas on record updates during an attempt -/

theorem mem_updateBackup (bs : List Backup) (bnew b : Backup)
    (hb : b ∈ bs) (hne : b.id ≠ bnew.id) : b ∈ updateBackup bs bnew := by
  simp only [updateBackup, List.mem_map]
  exact ⟨b, hb, by simp [hne]⟩

/-- Any pre-existing record whose id differs from the fresh attempt's id is
still stored, unchanged, after the attempt (the executor writes only to
the new record, and the sweep's marker write always fails). -/
theorem mem_backupsAfter (env : ExecEnv) (storagePath : String)
    (jobs : List BackupJob) (backups : List Backup) (newId job_id : Nat)
    (now : Time) (o : ExecOutcome)
    (h : outcomeOf (createBackup env storagePath jobs backups newId job_id
      now) = some o)
    (b : Backup) (hb : b ∈ backups) (hne : b.id ≠ newId) :
    b ∈ o.backupsAfter := by
  rcases hj : findJob jobs job_id with _ | job
  · simp [createBackup, outcomeOf, hj] at h
  · have hb0 : b ∈ backups ++
        [(⟨newId, job_id, BackupStatus.pending, none, none, none, some now,
          none, none, now⟩ : Backup)] :=
      List.mem_append_left _ hb
    obtain ⟨sql, up, cq, ns, cc, fs, tag, ex⟩ := env
    cases cc <;> cases sql <;> cases up <;> cases cq <;> cases ns <;>
      (simp only [createBackup, outcomeOf, hj, Bool.not_true, Bool.not_false,
         Bool.false_eq_true, Bool.true_eq_false, if_true, if_false,
         Option.some.injEq, ite_true, ite_false] at h;
       subst h;
       simp only [cleanupOldBackups_fst];
       first
       | exact mem_updateBackup _ _ _
           (mem_updateBackup _ _ _ (mem_updateBackup _ _ _ hb0 hne) hne) hne
       | exact mem_updateBackup _ _ _ (mem_updateBackup _ _ _ hb0 hne) hne)

/-! ## Claim C5 — status progression of an attempt -/

/-- Claim C5 (amended): an attempt's record moves
Pending → InProgress → one of Completed / Failed, Failed is absorbing
(nothing but the doubled error handler's second Failed write can follow
it, and a cancellation delivered during the failure notification merely
skips that second write), and the retention sweep never alters the status
of any other record; the one backward step the executor can produce is
Completed → Failed, and it occurs exactly when the retention sweep's
store query or the success notification raises after the status was
already set to Completed. -/
theorem C5_status_progression (env : ExecEnv) (storagePath : String)
    (jobs : List BackupJob) (backups : List Backup) (newId job_id : Nat)
    (now : Time) (o : ExecOutcome)
    (h : outcomeOf (createBackup env storagePath jobs backups newId job_id
      now) = some o) :
    ((o.statusTrace = [BackupStatus.pending, BackupStatus.in_progress,
        BackupStatus.failed, BackupStatus.failed] ∨
      (o.statusTrace = [BackupStatus.pending, BackupStatus.in_progress,
          BackupStatus.failed] ∧
        env.cancelled = true)) ∨
      o.statusTrace = [BackupStatus.pending, BackupStatus.in_progress,
        BackupStatus.completed] ∨
      ((o.statusTrace = [BackupStatus.pending, BackupStatus.in_progress,
          BackupStatus.completed, BackupStatus.failed, BackupStatus.failed] ∨
        (o.statusTrace = [BackupStatus.pending, BackupStatus.in_progress,
            BackupStatus.completed, BackupStatus.failed] ∧
          env.cancelled = true)) ∧
        (env.cleanupQueryOk = false ∨ env.notifySuccessOk = false))) ∧
    ∀ b ∈ backups, b.id ≠ newId →
      ∃ b2 ∈ o.backupsAfter, b2.id = b.id ∧ b2.status = b.status := by
  refine ⟨?_, fun b hb hne =>
    ⟨b, mem_backupsAfter env storagePath jobs backups newId job_id now o h b
      hb hne, rfl, rfl⟩⟩
  rcases hj : findJob jobs job_id with _ | job
  · simp [createBackup, outcomeOf, hj] at h
  · obtain ⟨sql, up, cq, ns, cc, fs, tag, ex⟩ := env
    cases cc <;> cases sql <;> cases up <;> cases cq <;> cases ns <;>
      (simp only [createBackup, outcomeOf, hj, Bool.not_true, Bool.not_false,
         Bool.false_eq_true, Bool.true_eq_false, if_true, if_false,
         Option.some.injEq, ite_true, ite_false] at h;
       subst h;
       simp)

/-- Claim C5 witness: the amended statement applied to a concrete fully
successful attempt over a store holding one older Completed record. -/
theorem C5_status_progression_witness :
    (∃ o, outcomeOf (createBackup
        ⟨true, true, true, true, false, 50, "t5", fun _ => true⟩
        "/var/backups"
        [⟨5, "db5", BackupType.full, ScheduleFrequency.daily, 30, none,
          none, true⟩]
        [⟨40, 5, BackupStatus.completed, some "/data/old.bak", some 1,
          some "/db5/old.bak", some 0, some 1, none, 0⟩]
        41 5 100000) = some o ∧
      (o.statusTrace = [BackupStatus.pending, BackupStatus.in_progress,
        BackupStatus.completed]) ∧
      ∃ b2 ∈ o.backupsAfter, b2.id = 40 ∧
        b2.status = BackupStatus.completed) := by
  refine ⟨_, rfl, ?_⟩
  have h := C5_status_progression
    ⟨true, true, true, true, false, 50, "t5", fun _ => true⟩
    "/var/backups"
    [⟨5, "db5", BackupType.full, ScheduleFrequency.daily, 30, none, none,
      true⟩]
    [⟨40, 5, BackupStatus.completed, some "/data/old.bak", some 1,
      some "/db5/old.bak", some 0, some 1, none, 0⟩]
    41 5 100000 _ rfl
  refine ⟨?_, ?_⟩
  · rcases h.1 with (h1 | ⟨h1, h2⟩) | h1 | ⟨h1, h2⟩
    · exact absurd h1 (by decide)
    · exact absurd h2 (by decide)
    · exact h1
    · exact absurd h2 (by decide)
  · obtain ⟨b2, hb2, hid, hst⟩ := h.2
      ⟨40, 5, BackupStatus.completed, some "/data/old.bak", some 1,
        some "/db5/old.bak", some 0, some 1, none, 0⟩
      (by decide) (by decide)
    exact ⟨b2, hb2, hid, by rw [hst]⟩

/-- Claim C5 counterexample: with the success notification's store access
failing after a successful backup and upload, the record's status is
written Completed and then overwritten Failed by the executor's error
handler — a Completed → Failed regression, so Completed is not
absorbing. -/
theorem C5_counterexample :
    (outcomeOf (createBackup
        ⟨true, true, true, false, false, 10, "t8", fun _ => true⟩
        "/var/backups"
        [⟨8, "db8", BackupType.full, ScheduleFrequency.daily, 30, none,
          none, true⟩]
        [] 12 8 700)).map (fun o => o.statusTrace) =
      some [BackupStatus.pending, BackupStatus.in_progress,
        BackupStatus.completed, BackupStatus.failed, BackupStatus.failed] := by
  decide

/-! ## Lemmas on the scheduler state -/

theorem inRunning_eq_true_iff (r : List InflightEntry) (k : Nat) :
    inRunning r k = true ↔ ∃ e ∈ r, e.jobId = k := by
  simp [inRunning, List.any_eq_true]

theorem setRunning_of_absent (r : List InflightEntry) (e : InflightEntry)
    (h : inRunning r e.jobId = false) : setRunning r e = r ++ [e] := by
  simp [setRunning, h]

theorem inRunning_setRunning_self (r : List InflightEntry)
    (e : InflightEntry) : inRunning (setRunning r e) e.jobId = true := by
  by_cases hr : inRunning r e.jobId = true
  · obtain ⟨x, hx, hxk⟩ := (inRunning_eq_true_iff r e.jobId).mp hr
    simp only [setRunning]
    rw [if_pos hr, inRunning_eq_true_iff]
    exact ⟨e, List.mem_map.mpr ⟨x, hx, by simp [hxk]⟩, rfl⟩
  · have hrf : inRunning r e.jobId = false := by simpa using hr
    rw [setRunning_of_absent r e hrf]
    rw [inRunning_eq_true_iff]
    exact ⟨e, by simp, rfl⟩

theorem inRunning_setRunning_of_mem (r : List InflightEntry)
    (e : InflightEntry) (k : Nat) (h : inRunning r k = true) :
    inRunning (setRunning r e) k = true := by
  by_cases hr : inRunning r e.jobId = true
  · obtain ⟨x, hx, hxk⟩ := (inRunning_eq_true_iff r k).mp h
    simp only [setRunning]
    rw [if_pos hr, inRunning_eq_true_iff]
    by_cases hxe : x.jobId = e.jobId
    · refine ⟨e, List.mem_map.mpr ⟨x, hx, by simp [hxe]⟩, ?_⟩
      rw [← hxe, hxk]
    · exact ⟨x, List.mem_map.mpr ⟨x, hx, by simp [hxe]⟩, hxk⟩
  · have hrf : inRunning r e.jobId = false := by simpa using hr
    rw [setRunning_of_absent r e hrf, inRunning_eq_true_iff]
    rw [inRunning_eq_true_iff] at h
    obtain ⟨x, hx, hxk⟩ := h
    exact ⟨x, List.mem_append_left _ hx, hxk⟩

/-- A key present in the in-flight map stays present across a whole poll
cycle. -/
theorem pollFold_mono (now : Time) (k : Nat) (L : List BackupJob) :
    ∀ s : SchedState, inRunning s.running k = true →
      inRunning ((L.foldl (pollStep now) s).running) k = true := by
  induction L with
  | nil => intro s hs; exact hs
  | cons j L ih =>
    intro s hs
    rw [List.foldl_cons]
    by_cases hg : inRunning s.running j.id = true
    · rw [show pollStep now s j = s by simp [pollStep, hg]]
      exact ih s hs
    · have hgf : inRunning s.running j.id = false := by simpa using hg
      rw [show pollStep now s j = scheduleJob s j now by simp [pollStep, hgf]]
      exact ih _ (inRunning_setRunning_of_mem _ _ _ hs)

/-- Every job processed by a poll cycle ends the cycle with its id in the
in-flight map (it is either dispatched by this cycle or already there). -/
theorem pollFold_selects (now : Time) (j : BackupJob) (L : List BackupJob) :
    ∀ s : SchedState, j ∈ L →
      inRunning ((L.foldl (pollStep now) s).running) j.id = true := by
  induction L with
  | nil => intro s h; cases h
  | cons a L ih =>
    intro s hmem
    rw [List.foldl_cons]
    rcases List.mem_cons.mp hmem with rfl | hmem2
    · apply pollFold_mono
      by_cases hg : inRunning s.running j.id = true
      · rw [show pollStep now s j = s by simp [pollStep, hg]]
        exact hg
      · have hgf : inRunning s.running j.id = false := by simpa using hg
        rw [show pollStep now s j = scheduleJob s j now by simp [pollStep, hgf]]
        exact inRunning_setRunning_self _ _
    · exact ih _ hmem2

/-- A poll cycle leaves the jobs table unchanged: no scheduling path writes
a durable job field (the next_run assignment is rolled back with the
caller's session). -/
theorem pollFold_jobs (now : Time) (L : List BackupJob) :
    ∀ s : SchedState, (L.foldl (pollStep now) s).jobs = s.jobs := by
  induction L with
  | nil => intro s; rfl
  | cons j L ih =>
    intro s
    rw [List.foldl_cons, ih]
    by_cases hg : inRunning s.running j.id = true
    · rw [show pollStep now s j = s by simp [pollStep, hg]]
    · have hgf : inRunning s.running j.id = false := by simpa using hg
      rw [show pollStep now s j = scheduleJob s j now by simp [pollStep, hgf]]
      rfl

theorem find?_key_append_singleton (l : List InflightEntry)
    (e : InflightEntry) (k : Nat) (hne : e.jobId ≠ k) :
    (l ++ [e]).find? (fun x => x.jobId == k) =
      l.find? (fun x => x.jobId == k) := by
  induction l with
  | nil =>
    have hf : (e.jobId == k) = false := by simp [hne]
    simp [List.find?, hf]
  | cons a t ih =>
    cases hpa : (a.jobId == k) <;> simp [List.find?_cons, hpa, ih]

theorem findJob_id (jobs : List BackupJob) (id : Nat) (job : BackupJob)
    (h : findJob jobs id = some job) : job.id = id := by
  have := List.find?_some h
  simpa using this

/-- A poll cycle neither creates a task for, nor touches the stored entry
of, a job whose id is already a key of the in-flight map. -/
theorem pollFold_preserves (now : Time) (k : Nat) (L : List BackupJob) :
    ∀ s : SchedState, inRunning s.running k = true →
      countDispatched (L.foldl (pollStep now) s) k = countDispatched s k ∧
      entryFor (L.foldl (pollStep now) s) k = entryFor s k := by
  induction L with
  | nil => intro s hs; exact ⟨rfl, rfl⟩
  | cons j L ih =>
    intro s hs
    rw [List.foldl_cons]
    by_cases hg : inRunning s.running j.id = true
    · rw [show pollStep now s j = s by simp [pollStep, hg]]
      exact ih s hs
    · have hgf : inRunning s.running j.id = false := by simpa using hg
      have hne : j.id ≠ k := by
        intro hk
        rw [hk] at hgf
        rw [hgf] at hs
        cases hs
      rw [show pollStep now s j = scheduleJob s j now by simp [pollStep, hgf]]
      have hrun : (scheduleJob s j now).running =
          s.running ++ [⟨j.id, s.taskCounter⟩] := by
        simp only [scheduleJob]
        exact setRunning_of_absent _ _ hgf
      have hin2 : inRunning (scheduleJob s j now).running k = true :=
        inRunning_setRunning_of_mem _ _ _ hs
      obtain ⟨ih1, ih2⟩ := ih (scheduleJob s j now) hin2
      refine ⟨?_, ?_⟩
      · rw [ih1]
        simp only [countDispatched, scheduleJob, List.filter_append,
          List.length_append]
        rw [show (List.filter (fun e => e.jobId == k)
          [(⟨j.id, s.taskCounter⟩ : InflightEntry)]) = [] by simp [hne]]
        simp
      · rw [ih2]
        simp only [entryFor]
        rw [hrun]
        exact find?_key_append_singleton _ _ _ hne

theorem inRunning_pauseJob (st : SchedState) (id : Nat) :
    inRunning (pauseJob st id).running id = false := by
  by_cases h : inRunning st.running id = true
  · simp only [pauseJob, h, if_true]
    exact inRunning_delRunning _ _
  · have hf : inRunning st.running id = false := by simpa using h
    simp [pauseJob, hf]

/-! ## Claim C3 — in-flight map discipline -/

/-- Claim C3 (amended): while an entry for a job id is present in the
in-flight map, a poll cycle creates no new task for that id and leaves the
stored entry untouched (no second dispatch); the finally block of
`_run_backup` removes whatever entry currently sits under the job id; but
terminal completion is not the only remover: `pause_job` cancels the
stored task and deletes the entry synchronously (without any
terminal-completion signal), and `reschedule_job` deletes a live entry and
immediately registers a replacement task under the same key. -/
theorem C3_single_flight (st : SchedState) (now now2 : Time) (id tok : Nat)
    (job : BackupJob)
    (hin : inRunning st.running id = true)
    (hfind : findJob st.jobs id = some job)
    (hact : job.is_active = true) :
    (countDispatched (schedulePendingJobs st now) id = countDispatched st id ∧
      entryFor (schedulePendingJobs st now) id = entryFor st id) ∧
    (inRunning (pauseJob st id).running id = false ∧
      (pauseJob st id).ended = st.ended) ∧
    ((rescheduleJob st id now2).running =
        delRunning st.running id ++ [⟨id, st.taskCounter⟩] ∧
      (rescheduleJob st id now2).ended = st.ended) ∧
    (runBackupEnd st id tok).running = delRunning st.running id := by
  have hid := findJob_id st.jobs id job hfind
  refine ⟨pollFold_preserves now id _ st hin, ⟨inRunning_pauseJob st id, ?_⟩,
    ⟨?_, ?_⟩, ?_⟩
  · simp [pauseJob, hin]
  · simp only [rescheduleJob, hfind, hact, if_true]
    rw [if_pos hin]
    show setRunning (delRunning st.running id) ⟨job.id, st.taskCounter⟩ = _
    rw [hid]
    exact setRunning_of_absent _ _ (inRunning_delRunning _ _)
  · simp only [rescheduleJob, hfind, hact, if_true]
    rw [if_pos hin]
    rfl
  · simp [runBackupEnd, hin]

/-- Claim C3 witness: the amended statement at a concrete scheduler state
with job 1 in flight. -/
theorem C3_single_flight_witness :
    (countDispatched (schedulePendingJobs
        ⟨[⟨1, "db", BackupType.full, ScheduleFrequency.daily, 30, none,
          some 0, true⟩], [⟨1, 0⟩], 5, [⟨1, 0⟩], [], []⟩ 100) 1 =
      countDispatched
        ⟨[⟨1, "db", BackupType.full, ScheduleFrequency.daily, 30, none,
          some 0, true⟩], [⟨1, 0⟩], 5, [⟨1, 0⟩], [], []⟩ 1 ∧
      entryFor (schedulePendingJobs
        ⟨[⟨1, "db", BackupType.full, ScheduleFrequency.daily, 30, none,
          some 0, true⟩], [⟨1, 0⟩], 5, [⟨1, 0⟩], [], []⟩ 100) 1 =
      entryFor
        ⟨[⟨1, "db", BackupType.full, ScheduleFrequency.daily, 30, none,
          some 0, true⟩], [⟨1, 0⟩], 5, [⟨1, 0⟩], [], []⟩ 1) ∧
    (inRunning (pauseJob
        ⟨[⟨1, "db", BackupType.full, ScheduleFrequency.daily, 30, none,
          some 0, true⟩], [⟨1, 0⟩], 5, [⟨1, 0⟩], [], []⟩ 1).running 1 =
        false ∧
      (pauseJob
        ⟨[⟨1, "db", BackupType.full, ScheduleFrequency.daily, 30, none,
          some 0, true⟩], [⟨1, 0⟩], 5, [⟨1, 0⟩], [], []⟩ 1).ended = []) ∧
    ((rescheduleJob
        ⟨[⟨1, "db", BackupType.full, ScheduleFrequency.daily, 30, none,
          some 0, true⟩], [⟨1, 0⟩], 5, [⟨1, 0⟩], [], []⟩ 1 200).running =
        delRunning [⟨1, 0⟩] 1 ++ [⟨1, 5⟩] ∧
      (rescheduleJob
        ⟨[⟨1, "db", BackupType.full, ScheduleFrequency.daily, 30, none,
          some 0, true⟩], [⟨1, 0⟩], 5, [⟨1, 0⟩], [], []⟩ 1 200).ended = []) ∧
    (runBackupEnd
        ⟨[⟨1, "db", BackupType.full, ScheduleFrequency.daily, 30, none,
          some 0, true⟩], [⟨1, 0⟩], 5, [⟨1, 0⟩], [], []⟩ 1 9).running =
      delRunning [⟨1, 0⟩] 1 :=
  C3_single_flight
    ⟨[⟨1, "db", BackupType.full, ScheduleFrequency.daily, 30, none, some 0,
      true⟩], [⟨1, 0⟩], 5, [⟨1, 0⟩], [], []⟩
    100 200 1 9
    ⟨1, "db", BackupType.full, ScheduleFrequency.daily, 30, none, some 0,
      true⟩
    rfl rfl rfl

/-- Claim C3 counterexample: at a concrete state with a live in-flight
entry for job 1 (token 0, which has signalled no terminal completion),
`pause_job` removes the entry, and `reschedule_job` replaces it with a
fresh task entry — both without any terminal-completion signal from the
execution, contradicting "an entry is removed from the in-flight map only
when its execution signals terminal completion". -/
theorem C3_counterexample :
    (pauseJob
      ⟨[⟨1, "db", BackupType.full, ScheduleFrequency.daily, 30, none,
        some 0, true⟩], [⟨1, 0⟩], 5, [⟨1, 0⟩], [], []⟩ 1).running = [] ∧
    (pauseJob
      ⟨[⟨1, "db", BackupType.full, ScheduleFrequency.daily, 30, none,
        some 0, true⟩], [⟨1, 0⟩], 5, [⟨1, 0⟩], [], []⟩ 1).ended = [] ∧
    (rescheduleJob
      ⟨[⟨1, "db", BackupType.full, ScheduleFrequency.daily, 30, none,
        some 0, true⟩], [⟨1, 0⟩], 5, [⟨1, 0⟩], [], []⟩ 1 50).running =
      [⟨1, 5⟩] ∧
    (rescheduleJob
      ⟨[⟨1, "db", BackupType.full, ScheduleFrequency.daily, 30, none,
        some 0, true⟩], [⟨1, 0⟩], 5, [⟨1, 0⟩], [], []⟩ 1 50).ended = [] := by
  decide

/-! ## Claim C4 — next-run computation -/

/-- Claim C4 (amended): the frequency maps to 1 / 7 / 30 days; with
`last_run` known the candidate is `last_run` + interval; a candidate
strictly in the past, or an unknown `last_run`, yields now + 5 minutes,
so the computed time is never in the past — but it is not always strictly
in the future: when `last_run` + interval equals the current time exactly,
the strict `<` comparison keeps the candidate and the computed next run is
exactly the current time (immediate). -/
theorem C4_next_run_computation (job : BackupJob) (now : Time) :
    (frequencyDays ScheduleFrequency.daily = 1 ∧
      frequencyDays ScheduleFrequency.weekly = 7 ∧
      frequencyDays ScheduleFrequency.monthly = 30) ∧
    now ≤ getNextRunTime job (frequencyDays job.frequency) now ∧
    (job.last_run = none →
      getNextRunTime job (frequencyDays job.frequency) now =
        now + catchUpDelay) ∧
    (∀ lr, job.last_run = some lr →
      lr + frequencyDays job.frequency * minutesPerDay < now →
      getNextRunTime job (frequencyDays job.frequency) now =
        now + catchUpDelay) ∧
    (∀ lr, job.last_run = some lr →
      now ≤ lr + frequencyDays job.frequency * minutesPerDay →
      getNextRunTime job (frequencyDays job.frequency) now =
        lr + frequencyDays job.frequency * minutesPerDay) ∧
    (getNextRunTime job (frequencyDays job.frequency) now = now →
      job.last_run =
        some (now - frequencyDays job.frequency * minutesPerDay)) := by
  refine ⟨⟨rfl, rfl, rfl⟩, ?_, ?_, ?_, ?_, ?_⟩
  · rcases hl : job.last_run with _ | lr
    · simp only [getNextRunTime, hl, catchUpDelay]
      linarith
    · simp only [getNextRunTime, hl]
      split
      · simp only [catchUpDelay]; linarith
      · next hcond => linarith [not_lt.mp hcond]
  · intro h
    simp [getNextRunTime, h]
  · intro lr h hlt
    simp only [getNextRunTime, h]
    rw [if_pos hlt]
  · intro lr h hge
    simp only [getNextRunTime, h]
    rw [if_neg (not_lt.mpr hge)]
  · intro hh
    rcases hl : job.last_run with _ | lr
    · exfalso
      simp only [getNextRunTime, hl, catchUpDelay] at hh
      linarith
    · simp only [getNextRunTime, hl] at hh
      split at hh
      · exfalso
        simp only [catchUpDelay] at hh
        linarith
      · exact congrArg some (by linarith)

/-- Claim C4 witness: a Weekly job with `last_run` = 0 evaluated at
now = 100: the mapped interval is 7 days and the computed time is the
candidate `last_run` + interval, not in the past. -/
theorem C4_next_run_computation_witness :
    frequencyDays ScheduleFrequency.weekly = 7 ∧
    (100 : Int) ≤ getNextRunTime
      ⟨2, "dbw", BackupType.full, ScheduleFrequency.weekly, 30, some 0,
        none, true⟩
      (frequencyDays ScheduleFrequency.weekly) 100 ∧
    getNextRunTime
      ⟨2, "dbw", BackupType.full, ScheduleFrequency.weekly, 30, some 0,
        none, true⟩
      (frequencyDays ScheduleFrequency.weekly) 100 =
      0 + frequencyDays ScheduleFrequency.weekly * minutesPerDay :=
  ⟨(C4_next_run_computation
      ⟨2, "dbw", BackupType.full, ScheduleFrequency.weekly, 30, some 0,
        none, true⟩ 100).1.2.1,
   (C4_next_run_computation
      ⟨2, "dbw", BackupType.full, ScheduleFrequency.weekly, 30, some 0,
        none, true⟩ 100).2.1,
   (C4_next_run_computation
      ⟨2, "dbw", BackupType.full, ScheduleFrequency.weekly, 30, some 0,
        none, true⟩ 100).2.2.2.2.1 0 rfl (by decide)⟩

/-- Claim C4 counterexample: a Daily job with `last_run` exactly one
interval before now (candidate = now): the candidate is not strictly in
the past, so the catch-up branch is skipped and the computed next run
equals the very time at which it was computed — an immediate next run,
contradicting "never immediate". -/
theorem C4_counterexample :
    getNextRunTime
      ⟨4, "db4", BackupType.full, ScheduleFrequency.daily, 30, some 0, none,
        true⟩
      (frequencyDays ScheduleFrequency.daily) 1440 = 1440 := by
  decide

/-! ## Claim C7 — pause -/

/-- Claim C7 (amended): after `pause_job` returns, the job id is no longer
a key of the in-flight map — but the job row itself is untouched, so the
very next poll cycle in which the job is due selects it again and puts it
back in flight, with no `resume_job` in between; and no
cancellation-specific Failed state exists: every await of an attempt lies
after a terminal status write (the backup/upload region is synchronous),
so an attempt whose task is cancelled ends with status Completed and no
error message, or Failed carrying the genuine failure's message — never
left InProgress and never marked with a cancellation error — while the
CancelledError itself escapes uncaught. -/
theorem C7_pause_removes_but_does_not_stop_polling (st : SchedState)
    (id : Nat) (j : BackupJob) (now2 : Time) (env : ExecEnv)
    (storagePath : String) (jobs : List BackupJob) (backups : List Backup)
    (newId job_id : Nat) (now : Time) (job : BackupJob) (o : ExecOutcome)
    (hj : j ∈ st.jobs) (hjid : j.id = id) (hdue : isDue j now2 = true)
    (hfind : findJob jobs job_id = some job)
    (hcanc : env.cancelled = true)
    (ho : outcomeOf (createBackup env storagePath jobs backups newId job_id
      now) = some o) :
    inRunning (pauseJob st id).running id = false ∧
    inRunning (schedulePendingJobs (pauseJob st id) now2).running id = true ∧
    (((o.backup.status = BackupStatus.completed ∧
        o.backup.error_message = none) ∨
      (o.backup.status = BackupStatus.failed ∧
        (o.backup.error_message = some "sql backup failed" ∨
          o.backup.error_message = some "upload failed" ∨
          o.backup.error_message = some "cleanup query failed" ∨
          o.backup.error_message = some "success notification failed"))) ∧
      o.raised = some PyErr.cancelledError) := by
  refine ⟨inRunning_pauseJob st id, ?_, ?_⟩
  · have hjmem : j ∈ (pauseJob st id).jobs.filter (fun x => isDue x now2) := by
      have hjobs : (pauseJob st id).jobs = st.jobs := by
        by_cases h : inRunning st.running id = true <;> simp [pauseJob, h]
      rw [hjobs]
      exact List.mem_filter.mpr ⟨hj, hdue⟩
    have hsel := pollFold_selects now2 j _ (pauseJob st id) hjmem
    rw [hjid] at hsel
    exact hsel
  · obtain ⟨sql, up, cq, ns, cc, fs, tag, ex⟩ := env
    have hcc : cc = true := hcanc
    subst hcc
    cases sql <;> cases up <;> cases cq <;> cases ns <;>
      (simp only [createBackup, outcomeOf, hfind, Bool.not_true,
         Bool.not_false, Bool.false_eq_true, Bool.true_eq_false, if_true,
         if_false, Option.some.injEq, ite_true, ite_false] at ho;
       subst ho;
       simp [handleBackupError])

/-- Claim C7 witness: concrete pause of in-flight job 1, a later poll
re-selecting it, and a concrete cancelled attempt (all external calls
succeeding) ending Completed with no error message while the
CancelledError escapes. -/
theorem C7_pause_removes_but_does_not_stop_polling_witness :
    inRunning (pauseJob
      ⟨[⟨1, "db", BackupType.full, ScheduleFrequency.daily, 30, none,
        some 0, true⟩], [⟨1, 0⟩], 3, [⟨1, 0⟩], [], []⟩ 1).running 1 =
      false ∧
    inRunning (schedulePendingJobs (pauseJob
      ⟨[⟨1, "db", BackupType.full, ScheduleFrequency.daily, 30, none,
        some 0, true⟩], [⟨1, 0⟩], 3, [⟨1, 0⟩], [], []⟩ 1) 50).running 1 =
      true ∧
    ∃ o, outcomeOf (createBackup
        ⟨true, true, true, true, true, 5, "t", fun _ => true⟩ "/b"
        [⟨1, "db", BackupType.full, ScheduleFrequency.daily, 30, none,
          some 0, true⟩]
        [] 2 1 10) = some o ∧
      o.backup.status = BackupStatus.completed ∧
      o.backup.error_message = none ∧
      o.raised = some PyErr.cancelledError := by
  have h := C7_pause_removes_but_does_not_stop_polling
    ⟨[⟨1, "db", BackupType.full, ScheduleFrequency.daily, 30, none, some 0,
      true⟩], [⟨1, 0⟩], 3, [⟨1, 0⟩], [], []⟩
    1
    ⟨1, "db", BackupType.full, ScheduleFrequency.daily, 30, none, some 0,
      true⟩
    50
    ⟨true, true, true, true, true, 5, "t", fun _ => true⟩
    "/b"
    [⟨1, "db", BackupType.full, ScheduleFrequency.daily, 30, none, some 0,
      true⟩]
    [] 2 1 10
    ⟨1, "db", BackupType.full, ScheduleFrequency.daily, 30, none, some 0,
      true⟩
    _
    (by decide) rfl (by decide) rfl rfl rfl
  refine ⟨h.1, h.2.1, _, rfl, ?_, ?_, h.2.2.2⟩
  · rcases h.2.2.1 with ⟨h1, h2⟩ | ⟨h1, h2⟩
    · exact h1
    · exact absurd h1 (by decide)
  · rcases h.2.2.1 with ⟨h1, h2⟩ | ⟨h1, h2⟩
    · exact h2
    · exact absurd h1 (by decide)

/-- Claim C7 counterexample: job 9 is paused while in flight; it stays
active and due, so the next poll cycle (with no resume in between) puts it
back in flight — and a concrete attempt whose task is cancelled (all
external calls succeeding) ends with status Completed and no error
message, not Failed with a cancellation-specific error. Both halves
contradict the claim. -/
theorem C7_counterexample :
    (pauseJob
      ⟨[⟨9, "dbp", BackupType.full, ScheduleFrequency.daily, 30, none,
        some 0, true⟩], [⟨9, 2⟩], 6, [⟨9, 2⟩], [], []⟩ 9).running = [] ∧
    inRunning (schedulePendingJobs (pauseJob
      ⟨[⟨9, "dbp", BackupType.full, ScheduleFrequency.daily, 30, none,
        some 0, true⟩], [⟨9, 2⟩], 6, [⟨9, 2⟩], [], []⟩ 9) 100).running 9 =
      true ∧
    (outcomeOf (createBackup
        ⟨true, true, true, true, true, 1, "tc", fun _ => true⟩ "/b"
        [⟨9, "dbp", BackupType.full, ScheduleFrequency.daily, 30, none,
          some 0, true⟩]
        [] 30 9 20)).map
      (fun o => (o.backup.status, o.backup.error_message, o.raised)) =
      some (BackupStatus.completed, none, some PyErr.cancelledError) := by
  decide

/-! ## Claim C10 — dispatch is immediate, the next-run write is lost -/

/-- Claim C10 (amended): every scheduling path — `_schedule_job` itself,
`reschedule_job`, `resume_job`, and the poll cycle for each due job —
creates and registers the execution task immediately and unconditionally,
also when the computed next-run time lies in the future (the first-run
case computes now + 5 minutes yet the task is registered at once); but the
newly computed next_run is never written to the jobs table: the assignment
lands on the caller's soon-closed session while a different, empty session
is committed, so the table — and with it the selection of later poll
cycles — keeps the stale next_run unchanged. -/
theorem C10_schedule_dispatches_immediately (st : SchedState)
    (job : BackupJob) (now : Time) (id : Nat) (j2 : BackupJob) :
    ((scheduleJob st job now).dispatched =
      st.dispatched ++ [⟨job.id, st.taskCounter⟩]) ∧
    inRunning (scheduleJob st job now).running job.id = true ∧
    (scheduleJob st job now).jobs = st.jobs ∧
    (job.last_run = none →
      getNextRunTime job (frequencyDays job.frequency) now =
          now + catchUpDelay ∧
        now < now + catchUpDelay) ∧
    (findJob st.jobs id = some j2 → j2.is_active = true →
      (rescheduleJob st id now).dispatched =
        st.dispatched ++ [⟨j2.id, st.taskCounter⟩] ∧
      (rescheduleJob st id now).jobs = st.jobs) ∧
    (findJob st.jobs id = some j2 → j2.is_active = true →
      inRunning st.running id = false →
      (resumeJob st id now).dispatched =
        st.dispatched ++ [⟨j2.id, st.taskCounter⟩] ∧
      (resumeJob st id now).jobs = st.jobs) ∧
    (∀ jd ∈ st.jobs, isDue jd now = true →
      inRunning (schedulePendingJobs st now).running jd.id = true) ∧
    (schedulePendingJobs st now).jobs = st.jobs := by
  refine ⟨rfl, ?_, rfl, ?_, ?_, ?_, ?_, ?_⟩
  · exact inRunning_setRunning_self st.running ⟨job.id, st.taskCounter⟩
  · intro h
    refine ⟨by simp [getNextRunTime, h], ?_⟩
    simp only [catchUpDelay]
    linarith
  · intro hfind2 hact
    simp only [rescheduleJob, hfind2, hact, if_true]
    by_cases hr : inRunning st.running id = true
    · rw [if_pos hr]; exact ⟨rfl, rfl⟩
    · rw [if_neg hr]; exact ⟨rfl, rfl⟩
  · intro hfind2 hact hnr
    simp only [resumeJob, hfind2, hact, hnr]
    exact ⟨rfl, rfl⟩
  · intro jd hjd hdue
    exact pollFold_selects now jd _ st (List.mem_filter.mpr ⟨hjd, hdue⟩)
  · exact pollFold_jobs now _ st

/-- Claim C10 witness: a first-run Monthly job: the computed next-run time
is in the future (now + 5) yet the execution task is registered at once
from every path, while the stored job row — next_run included — stays
exactly as it was. -/
theorem C10_schedule_dispatches_immediately_witness :
    (scheduleJob
      ⟨[⟨3, "dbs", BackupType.full, ScheduleFrequency.monthly, 30, none,
        none, true⟩], [], 7, [], [], []⟩
      ⟨3, "dbs", BackupType.full, ScheduleFrequency.monthly, 30, none,
        none, true⟩ 100).dispatched = [⟨3, 7⟩] ∧
    inRunning (scheduleJob
      ⟨[⟨3, "dbs", BackupType.full, ScheduleFrequency.monthly, 30, none,
        none, true⟩], [], 7, [], [], []⟩
      ⟨3, "dbs", BackupType.full, ScheduleFrequency.monthly, 30, none,
        none, true⟩ 100).running 3 = true ∧
    (scheduleJob
      ⟨[⟨3, "dbs", BackupType.full, ScheduleFrequency.monthly, 30, none,
        none, true⟩], [], 7, [], [], []⟩
      ⟨3, "dbs", BackupType.full, ScheduleFrequency.monthly, 30, none,
        none, true⟩ 100).jobs =
      [⟨3, "dbs", BackupType.full, ScheduleFrequency.monthly, 30, none,
        none, true⟩] ∧
    getNextRunTime
      ⟨3, "dbs", BackupType.full, ScheduleFrequency.monthly, 30, none,
        none, true⟩
      (frequencyDays ScheduleFrequency.monthly) 100 = 100 + catchUpDelay ∧
    (rescheduleJob
      ⟨[⟨3, "dbs", BackupType.full, ScheduleFrequency.monthly, 30, none,
        none, true⟩], [], 7, [], [], []⟩ 3 100).dispatched = [⟨3, 7⟩] ∧
    (resumeJob
      ⟨[⟨3, "dbs", BackupType.full, ScheduleFrequency.monthly, 30, none,
        none, true⟩], [], 7, [], [], []⟩ 3 100).dispatched = [⟨3, 7⟩] ∧
    inRunning (schedulePendingJobs
      ⟨[⟨3, "dbs", BackupType.full, ScheduleFrequency.monthly, 30, none,
        none, true⟩], [], 7, [], [], []⟩ 100).running 3 = true ∧
    (schedulePendingJobs
      ⟨[⟨3, "dbs", BackupType.full, ScheduleFrequency.monthly, 30, none,
        none, true⟩], [], 7, [], [], []⟩ 100).jobs =
      [⟨3, "dbs", BackupType.full, ScheduleFrequency.monthly, 30, none,
        none, true⟩] := by
  have h := C10_schedule_dispatches_immediately
    ⟨[⟨3, "dbs", BackupType.full, ScheduleFrequency.monthly, 30, none,
      none, true⟩], [], 7, [], [], []⟩
    ⟨3, "dbs", BackupType.full, ScheduleFrequency.monthly, 30, none, none,
      true⟩
    100 3
    ⟨3, "dbs", BackupType.full, ScheduleFrequency.monthly, 30, none, none,
      true⟩
  exact ⟨h.1, h.2.1, h.2.2.1, (h.2.2.2.1 rfl).1, (h.2.2.2.2.1 rfl rfl).1,
    (h.2.2.2.2.2.1 rfl rfl rfl).1,
    h.2.2.2.2.2.2.1
      ⟨3, "dbs", BackupType.full, ScheduleFrequency.monthly, 30, none, none,
        true⟩
      (by decide) (by decide),
    h.2.2.2.2.2.2.2⟩

/-- Claim C10 counterexample: scheduling a first-run job computes a next
run of 105 and registers the task — yet the stored job row still has
next_run = none afterwards: the newly computed next_run is never written
to the table the poll cycles read, contradicting "it writes the newly
computed next_run". -/
theorem C10_counterexample :
    ((scheduleJob
      ⟨[⟨3, "dbs", BackupType.full, ScheduleFrequency.monthly, 30, none,
        none, true⟩], [], 7, [], [], []⟩
      ⟨3, "dbs", BackupType.full, ScheduleFrequency.monthly, 30, none,
        none, true⟩ 100).jobs.map (fun j => j.next_run)) = [none] ∧
    (scheduleJob
      ⟨[⟨3, "dbs", BackupType.full, ScheduleFrequency.monthly, 30, none,
        none, true⟩], [], 7, [], [], []⟩
      ⟨3, "dbs", BackupType.full, ScheduleFrequency.monthly, 30, none,
        none, true⟩ 100).dispatched = [⟨3, 7⟩] ∧
    getNextRunTime
      ⟨3, "dbs", BackupType.full, ScheduleFrequency.monthly, 30, none,
        none, true⟩
      (frequencyDays ScheduleFrequency.monthly) 100 = 105 := by
  decide

/-! ## Claim C8 — manual run-now -/

theorem length_updateBackup (bs : List Backup) (b : Backup) :
    (updateBackup bs b).length = bs.length := by
  simp [updateBackup]

/-- Claim C8 (amended): the manual-run route invokes `create_backup`
unconditionally — it never consults the scheduler's in-flight map, so every
request (also one for a job whose execution is in flight) starts an
Executor invocation and adds one attempt record; no ConcurrencyConflict
failure exists anywhere in the handler: with all adapters succeeding the
response is a 400 AttributeError (the handler then looks up the undefined
method `execute_backup`). -/
theorem C8_manual_run_bypasses_single_flight (env : ExecEnv)
    (storagePath : String) (jobs : List BackupJob) (backups : List Backup)
    (newId job_id : Nat) (now : Time) (job : BackupJob)
    (hfind : findJob jobs job_id = some job)
    (hcan : env.cancelled = false) :
    ((runBackupJobEndpoint env storagePath jobs backups newId job_id
        now).2.length = backups.length + 1) ∧
    (env.sqlOk = true → env.uploadOk = true → env.cleanupQueryOk = true →
      env.notifySuccessOk = true →
      (runBackupJobEndpoint env storagePath jobs backups newId job_id
          now).1 =
        RunNowResponse.badRequest "AttributeError: execute_backup") := by
  obtain ⟨sql, up, cq, ns, cc, fs, tag, ex⟩ := env
  have hcc : cc = false := hcan
  subst hcc
  cases sql <;> cases up <;> cases cq <;> cases ns <;>
    refine ⟨?_, fun h1 h2 h3 h4 => ?_⟩ <;>
    first
      | exact (Bool.false_ne_true h1).elim
      | exact (Bool.false_ne_true h2).elim
      | exact (Bool.false_ne_true h3).elim
      | exact (Bool.false_ne_true h4).elim
      | simp [runBackupJobEndpoint, createBackup, outcomeOf, hfind,
          updateBackup, cleanupOldBackups_fst, backupServiceMethods]

/-- Claim C8 witness: a concrete manual run for job 12 while the store
already holds an InProgress attempt for it: a second record appears and
the response is the 400 AttributeError, not a concurrency failure. -/
theorem C8_manual_run_bypasses_single_flight_witness :
    ((runBackupJobEndpoint
        ⟨true, true, true, true, false, 3, "t9", fun _ => true⟩ "/b"
        [⟨12, "dbm", BackupType.full, ScheduleFrequency.daily, 30, none,
          none, true⟩]
        [⟨31, 12, BackupStatus.in_progress, none, none, none, some 5, none,
          none, 5⟩]
        32 12 50).2.length = 2) ∧
    (runBackupJobEndpoint
        ⟨true, true, true, true, false, 3, "t9", fun _ => true⟩ "/b"
        [⟨12, "dbm", BackupType.full, ScheduleFrequency.daily, 30, none,
          none, true⟩]
        [⟨31, 12, BackupStatus.in_progress, none, none, none, some 5, none,
          none, 5⟩]
        32 12 50).1 =
      RunNowResponse.badRequest "AttributeError: execute_backup" := by
  have h := C8_manual_run_bypasses_single_flight
    ⟨true, true, true, true, false, 3, "t9", fun _ => true⟩ "/b"
    [⟨12, "dbm", BackupType.full, ScheduleFrequency.daily, 30, none, none,
      true⟩]
    [⟨31, 12, BackupStatus.in_progress, none, none, none, some 5, none,
      none, 5⟩]
    32 12 50
    ⟨12, "dbm", BackupType.full, ScheduleFrequency.daily, 30, none, none,
      true⟩
    rfl rfl
  exact ⟨h.1, h.2 rfl rfl rfl rfl⟩

/-- Claim C8 counterexample: with an InProgress attempt for job 12 already
recorded (an execution in flight), a manual run still starts a second
Executor invocation (record 32 is created and completed); a second manual
run racing on the same job also proceeds (record 33); and neither caller
observes any ConcurrencyConflict — the response is a 400 AttributeError.
All three contradict the claim. -/
theorem C8_counterexample :
    ((runBackupJobEndpoint
        ⟨true, true, true, true, false, 3, "tm", fun _ => true⟩ "/b"
        [⟨12, "dbm", BackupType.full, ScheduleFrequency.daily, 30, none,
          none, true⟩]
        [⟨31, 12, BackupStatus.in_progress, none, none, none, some 5, none,
          none, 5⟩]
        32 12 50).2.map (fun b => (b.id, b.status)) =
      [(31, BackupStatus.in_progress), (32, BackupStatus.completed)]) ∧
    ((runBackupJobEndpoint
        ⟨true, true, true, true, false, 3, "tm", fun _ => true⟩ "/b"
        [⟨12, "dbm", BackupType.full, ScheduleFrequency.daily, 30, none,
          none, true⟩]
        ((runBackupJobEndpoint
          ⟨true, true, true, true, false, 3, "tm", fun _ => true⟩ "/b"
          [⟨12, "dbm", BackupType.full, ScheduleFrequency.daily, 30, none,
            none, true⟩]
          [⟨31, 12, BackupStatus.in_progress, none, none, none, some 5,
            none, none, 5⟩]
          32 12 50).2)
        33 12 60).2.map (fun b => (b.id, b.status)) =
      [(31, BackupStatus.in_progress), (32, BackupStatus.completed),
        (33, BackupStatus.completed)]) ∧
    (runBackupJobEndpoint
        ⟨true, true, true, true, false, 3, "tm", fun _ => true⟩ "/b"
        [⟨12, "dbm", BackupType.full, ScheduleFrequency.daily, 30, none,
          none, true⟩]
        [⟨31, 12, BackupStatus.in_progress, none, none, none, some 5, none,
          none, 5⟩]
        32 12 50).1 =
      RunNowResponse.badRequest "AttributeError: execute_backup" := by
  decide

end SqlBackup
